import Mathlib

/-!
Verification of the IS 1893:2025 seismic calculator core
(src/app_is1893_2025.py) via a shallow embedding in Lean 4.

Numbers are modelled as exact rationals. Python exceptions raised by the
embedded numeric functions are modelled with an explicit error type
(`PyErr`) and `Except`: a function that can raise returns
`Except PyErr _`, a function that cannot raise is total. A separate
IEEE-style value type `PF` (NaN / signed infinity / finite rational)
models the pandas float arithmetic of the storey-distribution columns,
where division by a zero column sum silently produces NaN instead of
raising; `PF` ignores rounding and signed zero, which the properties
proved about it do not touch.
-/

namespace IS1893

/-- Exceptions the embedded Python code can raise: float division by zero
(ZeroDivisionError) and a failed dict lookup (KeyError). -/
inductive PyErr where
  | zeroDivision
  | keyError
deriving DecidableEq, Repr

/-- Horizontal normalized spectral acceleration, from `A_NH(T, site)` at
src/app_is1893_2025.py lines 48-53. Site classes are the literal strings
the app uses; any string other than "A/B" and "C" falls through to the
final `return`, i.e. gets the site-D formulas. The function is total:
every division it performs has `T` above a positive threshold. -/
def A_NH (T : ℚ) (site : String) : ℚ :=
  if site = "A/B" then
    if T ≤ 0.4 then 2.5 else if T ≤ 6 then 1 / T else 6 / T ^ 2
  else if site = "C" then
    if T ≤ 0.6 then 2.5 else if T ≤ 6 then 1.5 / T else 9 / T ^ 2
  else
    if T ≤ 0.8 then 2.5 else if T ≤ 6 then 2 / T else 12 / T ^ 2

/-- Vertical coefficient `delta_v(T, site)` (lines 55-58): returns 0.67
when `T > 0.10`, otherwise looks `site` up in a literal dict whose values
are constants; an unknown site raises KeyError. -/
def delta_v (T : ℚ) (site : String) : Except PyErr ℚ :=
  if 0.10 < T then .ok 0.67
  else if site = "A/B" then .ok 0.80
  else if site = "C" then .ok 0.82
  else if site = "D" then .ok 0.85
  else .error .keyError

/-- Vertical coefficient `gamma_v(T, site)` (lines 60-61). Python builds
the dict `{"A/B": 1/T, "C": 1.5/T, "D": 2.0/T}` before subscripting it,
so all three divisions are evaluated first: `T = 0` raises
ZeroDivisionError for every site string, known or not; only for `T ≠ 0`
does an unknown site reach the subscript and raise KeyError. -/
def gamma_v (T : ℚ) (site : String) : Except PyErr ℚ :=
  if T = 0 then .error .zeroDivision
  else if site = "A/B" then .ok (1 / T)
  else if site = "C" then .ok (1.5 / T)
  else if site = "D" then .ok (2.0 / T)
  else .error .keyError

/-- Horizontal base shear `(Z * I * A_NH(T, site) / R) * W` (lines 96-97,
used for both `Vx` and `Vy`). Python float division raises
ZeroDivisionError when `R = 0`; `A_NH` itself is total. -/
def Vh (Z Imp T : ℚ) (site : String) (R W : ℚ) : Except PyErr ℚ :=
  if R = 0 then .error .zeroDivision
  else .ok (Z * Imp * A_NH T site / R * W)

/-- Vertical base shear `Z * I * delta_v(TV, site) * gamma_v(TV, site) * W`
(line 98): `delta_v` is evaluated first, then `gamma_v`; either exception
propagates. There is no division by R. -/
def Vv (Z Imp TV : ℚ) (site : String) (W : ℚ) : Except PyErr ℚ :=
  match delta_v TV site with
  | .error e => .error e
  | .ok d =>
    match gamma_v TV site with
    | .error e => .error e
    | .ok g => .ok (Z * Imp * d * g * W)

/-- Lateral-load weight factor of one storey row `(Wi, Hi)`:
column `WiHi² = Wi * Hi ** 2` (line 169). -/
def weightFactor (s : ℚ × ℚ) : ℚ := s.1 * s.2 ^ 2

/-- Storey-force column: elementwise `f / factors.sum * V`, the pandas
expression `df[col] / df[col].sum() * V` of lines 171-173 (with `col` the
`WiHi²` column and `V` one of `Vx`, `Vy`, or the weight column and `Vv`).
Exact-arithmetic model; the NaN behaviour of the float original is
modelled separately on `PF`. -/
def QD (V : ℚ) (factors : List ℚ) : List ℚ :=
  factors.map fun f => f / factors.sum * V

/-- Reverse cumulative sum `series[::-1].cumsum()[::-1]` (lines 175-177):
entry `i` is the sum of entries `i, i+1, ...` of the input. -/
def revCumsum : List ℚ → List ℚ
  | [] => []
  | a :: l => (a + l.sum) :: revCumsum l

end IS1893

namespace IS1893

/-- Branch of `A_NH` selected by the site string "A/B". -/
lemma A_NH_AB (T : ℚ) :
    A_NH T "A/B" = if T ≤ 0.4 then 2.5 else if T ≤ 6 then 1 / T else 6 / T ^ 2 := by
  simp [A_NH]

/-- Branch of `A_NH` selected by the site string "C". -/
lemma A_NH_C (T : ℚ) :
    A_NH T "C" = if T ≤ 0.6 then 2.5 else if T ≤ 6 then 1.5 / T else 9 / T ^ 2 := by
  simp [A_NH]

/-- Branch of `A_NH` selected by any site string other than "A/B" and "C"
(the final `return` of the Python function): the site-D formulas. -/
lemma A_NH_other (T : ℚ) (site : String) (h1 : site ≠ "A/B") (h2 : site ≠ "C") :
    A_NH T site = if T ≤ 0.8 then 2.5 else if T ≤ 6 then 2 / T else 12 / T ^ 2 := by
  simp [A_NH, h1, h2]

/-- C1: the horizontal spectral acceleration is the piecewise function
the spec states, for each of the three site classes: plateau 2.5 up to the
site threshold (0.4 / 0.6 / 0.8 s), then c/T up to 6 s (c = 1 / 1.5 / 2),
then k/T² beyond 6 s (k = 6 / 9 / 12). -/
theorem A_NH_piecewise (T : ℚ) (hT : 0 < T) :
    ((T ≤ 0.4 → A_NH T "A/B" = 2.5) ∧
      (0.4 < T → T ≤ 6 → A_NH T "A/B" = 1 / T) ∧
      (6 < T → A_NH T "A/B" = 6 / T ^ 2)) ∧
    ((T ≤ 0.6 → A_NH T "C" = 2.5) ∧
      (0.6 < T → T ≤ 6 → A_NH T "C" = 1.5 / T) ∧
      (6 < T → A_NH T "C" = 9 / T ^ 2)) ∧
    ((T ≤ 0.8 → A_NH T "D" = 2.5) ∧
      (0.8 < T → T ≤ 6 → A_NH T "D" = 2 / T) ∧
      (6 < T → A_NH T "D" = 12 / T ^ 2)) := by
  refine ⟨?_, ?_, ?_⟩
  · refine ⟨fun h => ?_, fun h1 h2 => ?_, fun h => ?_⟩ <;>
      rw [A_NH_AB] <;> split_ifs <;> first | rfl | linarith
  · refine ⟨fun h => ?_, fun h1 h2 => ?_, fun h => ?_⟩ <;>
      rw [A_NH_C] <;> split_ifs <;> first | rfl | linarith
  · refine ⟨fun h => ?_, fun h1 h2 => ?_, fun h => ?_⟩ <;>
      rw [A_NH_other T "D" (by decide) (by decide)] <;>
      split_ifs <;> first | rfl | linarith

/-- Witness for C1 at T = 1 (site C mid-segment: 1.5 / 1). -/
theorem A_NH_piecewise_witness : A_NH 1 "C" = 1.5 / 1 :=
  (A_NH_piecewise 1 (by norm_num)).2.1.2.1 (by norm_num) (by norm_num)

/-- Past the plateau the spectrum is `c / T` up to 6 s and `k / T²` beyond,
with `k = 6 c`, so the two segments join at `T = 6` and the whole tail is
non-increasing. -/
lemma seg_mono (c k T1 T2 : ℚ) (hc : 0 < c) (hk : k = 6 * c)
    (h1 : 0 < T1) (h12 : T1 ≤ T2) :
    (if T2 ≤ 6 then c / T2 else k / T2 ^ 2) ≤
      (if T1 ≤ 6 then c / T1 else k / T1 ^ 2) := by
  have h2 : 0 < T2 := lt_of_lt_of_le h1 h12
  subst hk
  split_ifs with hA hB hB
  · rw [div_le_div_iff₀ h2 h1]
    nlinarith [mul_nonneg hc.le (sub_nonneg.mpr h12)]
  · linarith
  · have h6 : (6 : ℚ) < T2 := not_le.mp hA
    rw [div_le_div_iff₀ (by positivity) h1]
    nlinarith [mul_nonneg hc.le (sq_nonneg (T2 - 6)),
      mul_pos hc (sub_pos.mpr h6),
      mul_nonneg hc.le (sub_nonneg.mpr hB)]
  · have h6 : (6 : ℚ) < T1 := not_le.mp hB
    rw [div_le_div_iff₀ (by positivity) (by positivity)]
    nlinarith [mul_nonneg (mul_nonneg hc.le (sub_nonneg.mpr h12))
      (by linarith : (0 : ℚ) ≤ T2 + T1)]

/-- C5: for each site class the two adjacent formulas agree exactly at
both segment boundaries (the plateau threshold and T = 6 s), and beyond
the plateau threshold the ratio is monotonically non-increasing in T. -/
theorem A_NH_continuous_and_mono :
    (A_NH 0.4 "A/B" = 2.5 ∧ (1 : ℚ) / 0.4 = 2.5 ∧
      A_NH 6 "A/B" = 1 / 6 ∧ (6 : ℚ) / 6 ^ 2 = 1 / 6) ∧
    (A_NH 0.6 "C" = 2.5 ∧ (1.5 : ℚ) / 0.6 = 2.5 ∧
      A_NH 6 "C" = 1.5 / 6 ∧ (9 : ℚ) / 6 ^ 2 = 1.5 / 6) ∧
    (A_NH 0.8 "D" = 2.5 ∧ (2 : ℚ) / 0.8 = 2.5 ∧
      A_NH 6 "D" = 2 / 6 ∧ (12 : ℚ) / 6 ^ 2 = 2 / 6) ∧
    (∀ T1 T2 : ℚ, 0.4 < T1 → T1 ≤ T2 → A_NH T2 "A/B" ≤ A_NH T1 "A/B") ∧
    (∀ T1 T2 : ℚ, 0.6 < T1 → T1 ≤ T2 → A_NH T2 "C" ≤ A_NH T1 "C") ∧
    (∀ T1 T2 : ℚ, 0.8 < T1 → T1 ≤ T2 → A_NH T2 "D" ≤ A_NH T1 "D") := by
  refine ⟨?_, ?_, ?_, ?_, ?_, ?_⟩
  · rw [A_NH_AB, A_NH_AB]; norm_num
  · rw [A_NH_C, A_NH_C]; norm_num
  · rw [A_NH_other 0.8 "D" (by decide) (by decide),
      A_NH_other 6 "D" (by decide) (by decide)]; norm_num
  · intro T1 T2 h1 h12
    rw [A_NH_AB, A_NH_AB, if_neg (not_le.mpr h1),
      if_neg (not_le.mpr (lt_of_lt_of_le h1 h12))]
    exact seg_mono 1 6 T1 T2 (by norm_num) (by norm_num) (by linarith) h12
  · intro T1 T2 h1 h12
    rw [A_NH_C, A_NH_C, if_neg (not_le.mpr h1),
      if_neg (not_le.mpr (lt_of_lt_of_le h1 h12))]
    exact seg_mono 1.5 9 T1 T2 (by norm_num) (by norm_num) (by linarith) h12
  · intro T1 T2 h1 h12
    rw [A_NH_other T1 "D" (by decide) (by decide),
      A_NH_other T2 "D" (by decide) (by decide),
      if_neg (not_le.mpr h1),
      if_neg (not_le.mpr (lt_of_lt_of_le h1 h12))]
    exact seg_mono 2 12 T1 T2 (by norm_num) (by norm_num) (by linarith) h12

/-- Witness for C5: the monotone part at site A/B with T1 = 1, T2 = 2. -/
theorem A_NH_continuous_and_mono_witness : A_NH 2 "A/B" ≤ A_NH 1 "A/B" :=
  A_NH_continuous_and_mono.2.2.2.1 1 2 (by norm_num) (by norm_num)

/-- The head of the reverse cumulative sum of a nonempty series is the sum
of the whole series. -/
lemma revCumsum_head (l : List ℚ) (h : l ≠ []) :
    (revCumsum l).head? = some l.sum := by
  cases l with
  | nil => exact absurd rfl h
  | cons a t => simp [revCumsum]

/-- Entry `i` of the reverse cumulative sum is the sum of the entries from
`i` on (both sides default to 0 past the end). -/
lemma revCumsum_getD (l : List ℚ) (i : ℕ) :
    (revCumsum l).getD i 0 = (l.drop i).sum := by
  induction l generalizing i with
  | nil => simp [revCumsum]
  | cons a t ih =>
    cases i with
    | zero => simp [revCumsum]
    | succ n => simpa [revCumsum] using ih n

/-- Dropping one more element removes exactly entry `i` from the suffix
sum. -/
lemma drop_sum_step (l : List ℚ) (i : ℕ) (h : i < l.length) :
    (l.drop i).sum = l.getD i 0 + (l.drop (i + 1)).sum := by
  rw [List.drop_eq_getElem_cons h, List.sum_cons, List.getD_eq_getElem _ _ h]

/-- A reverse cumulative sum of non-negative entries is non-increasing. -/
lemma revCumsum_chain (l : List ℚ) (h : ∀ x ∈ l, 0 ≤ x) :
    List.Chain' (fun a b => b ≤ a) (revCumsum l) := by
  induction l with
  | nil => simp [revCumsum]
  | cons a t ih =>
    rw [revCumsum, List.chain'_cons']
    refine ⟨fun y hy => ?_, ih fun x hx => h x (List.mem_cons_of_mem _ hx)⟩
    cases t with
    | nil => simp [revCumsum] at hy
    | cons b u =>
      rw [revCumsum_head _ (by simp), Option.mem_some_iff] at hy
      have ha : 0 ≤ a := h a (List.mem_cons_self _ _)
      simp only [List.sum_cons] at hy ⊢
      linarith [hy.symm.le]

/-- A storey-force column is the factor column rescaled by `V / sum`. -/
lemma QD_sum_aux (V c : ℚ) (l : List ℚ) :
    (l.map fun f => f / c * V).sum = l.sum / c * V := by
  induction l with
  | nil => simp
  | cons a t ih => simp only [List.map_cons, List.sum_cons, ih]; ring

/-- The storey forces sum back to the base shear whenever the factor
column has a nonzero sum. -/
lemma QD_sum (V : ℚ) (fs : List ℚ) (h : fs.sum ≠ 0) : (QD V fs).sum = V := by
  unfold QD
  rw [QD_sum_aux, div_self h, one_mul]

/-- Every storey force is non-negative when the factors are non-negative
with positive sum and the base shear is non-negative. -/
lemma QD_nonneg (V : ℚ) (fs : List ℚ) (hf : ∀ f ∈ fs, 0 ≤ f) (hV : 0 ≤ V)
    (hs : 0 < fs.sum) : ∀ q ∈ QD V fs, 0 ≤ q := by
  intro q hq
  obtain ⟨f, hfm, rfl⟩ := List.mem_map.mp hq
  exact mul_nonneg (div_nonneg (hf f hfm) hs.le) hV

/-- C2: for positive weights and heights, the cumulative shear at the base
storey (the head of the reverse cumulative sum) equals the input base
shear exactly — hence certainly within 1e-6 relative tolerance — both for
the weight-times-height-squared rule used for the X and Y columns (any
base shear `V` stands for `Vx` or `Vy`) and for the weight rule used for
the vertical column. -/
theorem distributor_conserves (V : ℚ) (storeys : List (ℚ × ℚ))
    (hne : storeys ≠ []) (hpos : ∀ s ∈ storeys, 0 < s.1 ∧ 0 < s.2) :
    (revCumsum (QD V (storeys.map weightFactor))).head? = some V ∧
    (revCumsum (QD V (storeys.map Prod.fst))).head? = some V := by
  have hfac : 0 < (storeys.map weightFactor).sum := by
    refine List.sum_pos _ (fun x hx => ?_) (by simpa using hne)
    obtain ⟨s, hs, rfl⟩ := List.mem_map.mp hx
    exact mul_pos (hpos s hs).1 (pow_pos (hpos s hs).2 2)
  have hwt : 0 < (storeys.map Prod.fst).sum := by
    refine List.sum_pos _ (fun x hx => ?_) (by simpa using hne)
    obtain ⟨s, hs, rfl⟩ := List.mem_map.mp hx
    exact (hpos s hs).1
  constructor <;>
    rw [revCumsum_head _ (by simp [QD]; simpa using hne), QD_sum] <;>
    positivity

/-- Witness for C2: a single storey of weight 2 and height 3, V = 7. -/
theorem distributor_conserves_witness :
    (revCumsum (QD 7 ([((2 : ℚ), (3 : ℚ))].map weightFactor))).head? = some 7 ∧
    (revCumsum (QD 7 ([((2 : ℚ), (3 : ℚ))].map Prod.fst))).head? = some 7 :=
  distributor_conserves 7 [(2, 3)] (by simp)
    (by intro s hs; simp at hs; rw [hs]; norm_num)

/-- C3: with non-negative weights, a non-negative base shear and a factor
column of positive sum (the D-rule factors for X and Y, the weights for
vertical), the cumulative shear column is non-increasing from base to top,
drops strictly across a storey with positive force, and is unchanged
across a storey with zero force. -/
theorem cumshear_monotone (V : ℚ) (storeys : List (ℚ × ℚ)) (hV : 0 ≤ V)
    (fs : List ℚ)
    (hfs : fs = storeys.map weightFactor ∨ fs = storeys.map Prod.fst)
    (hW : ∀ s ∈ storeys, 0 ≤ s.1) (hsum : 0 < fs.sum) :
    List.Chain' (fun a b => b ≤ a) (revCumsum (QD V fs)) ∧
    ∀ i, i + 1 < (QD V fs).length →
      (0 < (QD V fs).getD i 0 →
        (revCumsum (QD V fs)).getD (i + 1) 0 <
          (revCumsum (QD V fs)).getD i 0) ∧
      ((QD V fs).getD i 0 = 0 →
        (revCumsum (QD V fs)).getD i 0 =
          (revCumsum (QD V fs)).getD (i + 1) 0) := by
  have hf : ∀ f ∈ fs, 0 ≤ f := by
    rcases hfs with rfl | rfl <;> intro f hf <;>
      obtain ⟨s, hs, rfl⟩ := List.mem_map.mp hf
    · exact mul_nonneg (hW s hs) (sq_nonneg _)
    · exact hW s hs
  have hq := QD_nonneg V fs hf hV hsum
  refine ⟨revCumsum_chain _ hq, fun i hi => ?_⟩
  have hstep : (revCumsum (QD V fs)).getD i 0 =
      (QD V fs).getD i 0 + (revCumsum (QD V fs)).getD (i + 1) 0 := by
    rw [revCumsum_getD, revCumsum_getD, drop_sum_step _ i (by omega)]
  constructor
  · intro hpos; linarith [hstep]
  · intro hzero; rw [hstep, hzero, zero_add]

/-- Witness for C3: two storeys of weight 1 at heights 1 and 2, V = 10,
with the weight-times-height-squared factors. -/
theorem cumshear_monotone_witness :
    List.Chain' (fun a b => b ≤ a)
      (revCumsum (QD 10 ([((1 : ℚ), (1 : ℚ)), (1, 2)].map weightFactor))) :=
  (cumshear_monotone 10 [(1, 1), (1, 2)] (by norm_num)
    ([(1, 1), (1, 2)].map weightFactor) (Or.inl rfl)
    (by intro s hs; simp at hs; rcases hs with h | h <;> rw [h] <;> norm_num)
    (by norm_num [weightFactor])).1

/-- Vertical coefficient stated from the claim, for comparison with the
code: 0.67 when T > 0.10 s, otherwise the site constant 0.80 / 0.82 /
0.85. -/
def deltaSpec (T : ℚ) (site : String) : ℚ :=
  if 0.10 < T then 0.67
  else if site = "A/B" then 0.80 else if site = "C" then 0.82 else 0.85

/-- Vertical amplification stated from the claim, for comparison with the
code: the site constant 1 / 1.5 / 2 divided by T. -/
def gammaSpec (T : ℚ) (site : String) : ℚ :=
  (if site = "A/B" then 1 else if site = "C" then 1.5 else 2) / T

/-- C4: for T > 0 and a recognized site class, the vertical base shear is
exactly Z · I · δᵥ(T) · γᵥ(T, site) · W with δᵥ and γᵥ as the claim
states them; the formula contains no division by the response reduction
factor R (R does not even occur among its arguments). -/
theorem Vv_formula (Z Imp T W : ℚ) (hT : 0 < T) (site : String)
    (hs : site = "A/B" ∨ site = "C" ∨ site = "D") :
    Vv Z Imp T site W =
      Except.ok (Z * Imp * deltaSpec T site * gammaSpec T site * W) := by
  have hT0 : T ≠ 0 := ne_of_gt hT
  rcases hs with rfl | rfl | rfl <;> by_cases h : 0.10 < T <;>
    simp [Vv, delta_v, gamma_v, deltaSpec, gammaSpec, hT0, h] <;>
    norm_num

/-- Witness for C4 at Z = 0.24, I = 1, T = 1, site C, W = 100. -/
theorem Vv_formula_witness :
    Vv 0.24 1 1 "C" 100 =
      Except.ok (0.24 * 1 * deltaSpec 1 "C" * gammaSpec 1 "C" * 100) :=
  Vv_formula 0.24 1 1 100 (by norm_num) "C" (Or.inr (Or.inl rfl))

/-- C6 counterexample: at T = 0 (so T ≤ 0) the horizontal spectral
evaluation does not fail at all — `A_NH` returns the plateau value 2.5 and
`delta_v` returns its site constant — refuting the claim that every
spectral-model evaluation with T ≤ 0 fails with a DomainError. -/
theorem spectral_no_error_at_zero :
    A_NH 0 "A/B" = 2.5 ∧ delta_v 0 "A/B" = Except.ok 0.80 := by
  constructor
  · rw [A_NH_AB]; norm_num
  · norm_num [delta_v]

/-- C6 amended: for T ≤ 0 no DomainError is raised anywhere. `A_NH`
silently returns the plateau 2.5, `delta_v` silently returns its site
constant, and of the vertical pair only `gamma_v` fails — with a
ZeroDivisionError, and only at T = 0; for T < 0 it silently returns a
negative amplification. -/
theorem spectral_at_nonpos_period (T : ℚ) (hT : T ≤ 0) (site : String)
    (hs : site = "A/B" ∨ site = "C" ∨ site = "D") :
    A_NH T site = 2.5 ∧
    delta_v T site =
      Except.ok
        (if site = "A/B" then 0.80 else if site = "C" then 0.82 else 0.85) ∧
    gamma_v 0 site = Except.error PyErr.zeroDivision ∧
    (T < 0 → ∃ g, gamma_v T site = Except.ok g ∧ g < 0) := by
  have hd : ¬(0.10 : ℚ) < T := by intro h; norm_num at h; linarith
  rcases hs with rfl | rfl | rfl
  · refine ⟨by rw [A_NH_AB, if_pos (by linarith)], by simp [delta_v, hd],
      by simp [gamma_v], fun h => ⟨1 / T, by simp [gamma_v, ne_of_lt h], ?_⟩⟩
    exact div_neg_of_pos_of_neg one_pos h
  · refine ⟨by rw [A_NH_C, if_pos (by linarith)], by simp [delta_v, hd],
      by simp [gamma_v], fun h => ⟨1.5 / T, by simp [gamma_v, ne_of_lt h], ?_⟩⟩
    exact div_neg_of_pos_of_neg (by norm_num) h
  · refine ⟨by rw [A_NH_other T "D" (by decide) (by decide),
        if_pos (by linarith)], by simp [delta_v, hd],
      by simp [gamma_v], fun h => ⟨2.0 / T, by simp [gamma_v, ne_of_lt h], ?_⟩⟩
    exact div_neg_of_pos_of_neg (by norm_num) h

/-- Witness for C6 amended, at T = -1, site C. -/
theorem spectral_at_nonpos_period_witness : A_NH (-1) "C" = 2.5 :=
  (spectral_at_nonpos_period (-1) (by norm_num) "C" (Or.inr (Or.inl rfl))).1

/-- The horizontal spectral acceleration is strictly positive for every
T > 0 and every site string. -/
lemma A_NH_pos (T : ℚ) (hT : 0 < T) (site : String) : 0 < A_NH T site := by
  unfold A_NH
  split_ifs <;> positivity

/-- C8 counterexample: with in-range Z, I, R and W = -10000 the base
shear evaluates to the ordinary value -200 — a silently produced negative
shear, not NaN and not an error — refuting the claim that W < 0 yields
NaN or an error. -/
theorem baseshear_negative_weight :
    Vh (1 / 10) 1 1 "A/B" 5 (-10000) = Except.ok (-200) ∧
      ((-200 : ℚ) < 0) := by
  refine ⟨?_, by norm_num⟩
  rw [Vh, if_neg (by norm_num), A_NH_AB]
  norm_num

/-- C8 amended: the base shear is a pure function of its arguments whose
value is the closed formula Z · I · A_NH(T, site) / R · W whenever R ≠ 0;
for R = 0 it raises ZeroDivisionError (so that part of the claim holds),
but for W < 0 (with the other inputs in range) it silently returns a
strictly negative shear instead of NaN or an error. -/
theorem baseshear_domain (Z Imp T : ℚ) (site : String) (R W : ℚ) :
    (R = 0 → Vh Z Imp T site R W = Except.error PyErr.zeroDivision) ∧
    (R ≠ 0 → Vh Z Imp T site R W =
      Except.ok (Z * Imp * A_NH T site / R * W)) ∧
    (0 < Z → 0 < Imp → 0 < T → 0 < R → W < 0 →
      ∃ v, Vh Z Imp T site R W = Except.ok v ∧ v < 0) := by
  refine ⟨fun h => by simp [Vh, h], fun h => by simp [Vh, h],
    fun hZ hI hT hR hW => ?_⟩
  refine ⟨Z * Imp * A_NH T site / R * W, by simp [Vh, ne_of_gt hR], ?_⟩
  have hA := A_NH_pos T hT site
  have hpos : 0 < Z * Imp * A_NH T site / R := by positivity
  exact mul_neg_of_pos_of_neg hpos hW

/-- Witness for C8 amended: the R = 0 branch at concrete inputs. -/
theorem baseshear_domain_witness :
    Vh 0.24 1 1 "C" 0 10000 = Except.error PyErr.zeroDivision :=
  (baseshear_domain 0.24 1 1 "C" 0 10000).1 rfl

/-- IEEE-style float value for the pandas column arithmetic of lines
169-177: NaN, the two infinities, or a finite value kept exact. Rounding
and signed zero are ignored; the properties proved on `PF` concern only
NaN propagation, which they do not affect. -/
inductive PF where
  | nan
  | pinf
  | ninf
  | val (q : ℚ)
deriving DecidableEq, Repr

/-- IEEE addition on `PF`: NaN absorbs, opposite infinities give NaN. -/
def PF.add : PF → PF → PF
  | .nan, _ => .nan
  | _, .nan => .nan
  | .pinf, .ninf => .nan
  | .ninf, .pinf => .nan
  | .pinf, _ => .pinf
  | _, .pinf => .pinf
  | .ninf, _ => .ninf
  | _, .ninf => .ninf
  | .val a, .val b => .val (a + b)

/-- IEEE multiplication on `PF`: NaN absorbs, infinity times zero is
NaN. -/
def PF.mul : PF → PF → PF
  | .nan, _ => .nan
  | _, .nan => .nan
  | .val a, .val b => .val (a * b)
  | .pinf, .pinf => .pinf
  | .pinf, .ninf => .ninf
  | .ninf, .pinf => .ninf
  | .ninf, .ninf => .pinf
  | .pinf, .val b => if b = 0 then .nan else if 0 < b then .pinf else .ninf
  | .val a, .pinf => if a = 0 then .nan else if 0 < a then .pinf else .ninf
  | .ninf, .val b => if b = 0 then .nan else if 0 < b then .ninf else .pinf
  | .val a, .ninf => if a = 0 then .nan else if 0 < a then .ninf else .pinf

/-- IEEE division on `PF`, the numpy behaviour of the pandas columns:
0 / 0 is NaN, nonzero / 0 is a signed infinity (not an exception),
infinity / infinity is NaN. -/
def PF.div : PF → PF → PF
  | .nan, _ => .nan
  | _, .nan => .nan
  | .val a, .val b =>
    if b = 0 then (if a = 0 then .nan else if 0 < a then .pinf else .ninf)
    else .val (a / b)
  | .pinf, .val b => if 0 ≤ b then .pinf else .ninf
  | .ninf, .val b => if 0 ≤ b then .ninf else .pinf
  | .val _, .pinf => .val 0
  | .val _, .ninf => .val 0
  | .pinf, .pinf => .nan
  | .pinf, .ninf => .nan
  | .ninf, .pinf => .nan
  | .ninf, .ninf => .nan

/-- Sum of a `PF` column (the columns summed in the source contain no NaN,
so the pandas skipna default makes no difference). -/
def sumPF (l : List PF) : PF := l.foldr PF.add (PF.val 0)

/-- Float evaluation of the storey-force column
`df[col] / df[col].sum() * V` (lines 171-173) on `PF` values: the same
expression as `QD`, with IEEE semantics for the division by the column
sum. -/
def QDfloat (V : ℚ) (fs : List ℚ) : List PF :=
  (fs.map PF.val).map fun f => (f.div (sumPF (fs.map PF.val))).mul (PF.val V)

/-- Float evaluation of the reverse cumulative sum of lines 175-177 on
`PF` values. -/
def revCumsumPF : List PF → List PF
  | [] => []
  | a :: l => (a.add (sumPF l)) :: revCumsumPF l

/-- NaN absorbs on the left of `PF.add`. -/
lemma PF.nan_add (x : PF) : PF.add PF.nan x = PF.nan := by cases x <;> rfl

/-- NaN absorbs on the left of `PF.mul`. -/
lemma PF.nan_mul (x : PF) : PF.mul PF.nan x = PF.nan := by cases x <;> rfl

/-- The column sum of an all-zero factor column is the float 0. -/
lemma sumPF_zero (fs : List ℚ) (h : ∀ f ∈ fs, f = 0) :
    sumPF (fs.map PF.val) = PF.val 0 := by
  induction fs with
  | nil => rfl
  | cons a t ih =>
    have ha : a = 0 := h a (List.mem_cons_self _ _)
    have ht := ih fun f hf => h f (List.mem_cons_of_mem _ hf)
    simp only [List.map_cons, sumPF, List.foldr_cons] at ht ⊢
    rw [ht, ha]
    simp [PF.add]

/-- Every float storey force over an all-zero factor column is NaN:
each entry is `0 / 0 * V`. -/
lemma QDfloat_all_zero (V : ℚ) (fs : List ℚ) (h : ∀ f ∈ fs, f = 0) :
    ∀ q ∈ QDfloat V fs, q = PF.nan := by
  intro q hq
  unfold QDfloat at hq
  rw [List.map_map] at hq
  obtain ⟨f, hf, rfl⟩ := List.mem_map.mp hq
  rw [Function.comp_apply, sumPF_zero fs h, h f hf]
  simp [PF.div, PF.nan_mul]

/-- The reverse cumulative sum of an all-NaN column is all NaN. -/
lemma revCumsumPF_nan (l : List PF) (h : ∀ x ∈ l, x = PF.nan) :
    ∀ q ∈ revCumsumPF l, q = PF.nan := by
  induction l with
  | nil => intro q hq; simp [revCumsumPF] at hq
  | cons a t ih =>
    intro q hq
    rw [revCumsumPF] at hq
    rcases List.mem_cons.mp hq with rfl | hq
    · rw [h a (List.mem_cons_self _ _), PF.nan_add]
    · exact ih (fun x hx => h x (List.mem_cons_of_mem _ hx)) q hq

/-- C7 counterexample: one storey of weight 0 at height 3, base shear
100. The distributor does not fail: it returns a force column and a
cumulative-shear column, both the single value NaN, refuting the claim
that an all-zero weight column makes it fail with a DomainError. -/
theorem distributor_nan_example :
    QDfloat 100 ([((0 : ℚ), (3 : ℚ))].map weightFactor) = [PF.nan] ∧
    revCumsumPF (QDfloat 100 ([((0 : ℚ), (3 : ℚ))].map weightFactor)) =
      [PF.nan] := by
  norm_num [QDfloat, sumPF, weightFactor, PF.div, PF.mul, PF.add,
    revCumsumPF]

/-- C7 amended: when all storey weights are zero (which zeroes both the
weight column and the weight-times-height-squared column), the distributor
raises nothing and instead fills every entry of the storey-force and
cumulative-shear columns, horizontal and vertical, with NaN — the silent
NaN propagation the claim says must not happen. -/
theorem distributor_nan_propagates (V : ℚ) (storeys : List (ℚ × ℚ))
    (hz : ∀ s ∈ storeys, s.1 = 0) :
    (∀ q ∈ QDfloat V (storeys.map weightFactor), q = PF.nan) ∧
    (∀ q ∈ revCumsumPF (QDfloat V (storeys.map weightFactor)), q = PF.nan) ∧
    (∀ q ∈ QDfloat V (storeys.map Prod.fst), q = PF.nan) ∧
    (∀ q ∈ revCumsumPF (QDfloat V (storeys.map Prod.fst)), q = PF.nan) := by
  have hwf : ∀ f ∈ storeys.map weightFactor, f = 0 := by
    intro f hf
    obtain ⟨s, hs, rfl⟩ := List.mem_map.mp hf
    rw [weightFactor, hz s hs, zero_mul]
  have hw : ∀ f ∈ storeys.map Prod.fst, f = 0 := by
    intro f hf
    obtain ⟨s, hs, rfl⟩ := List.mem_map.mp hf
    exact hz s hs
  exact ⟨QDfloat_all_zero V _ hwf,
    revCumsumPF_nan _ (QDfloat_all_zero V _ hwf),
    QDfloat_all_zero V _ hw,
    revCumsumPF_nan _ (QDfloat_all_zero V _ hw)⟩

/-- Witness for C7 amended: two zero-weight storeys, V = 50; the head of
the horizontal force column is NaN. -/
theorem distributor_nan_propagates_witness :
    (QDfloat 50 ([((0 : ℚ), (3 : ℚ)), (0, 6)].map weightFactor)).headD
      PF.nan = PF.nan :=
  (distributor_nan_propagates 50 [(0, 3), (0, 6)]
      (by intro s hs; simp at hs; rcases hs with h | h <;> rw [h])).1
    _ (by norm_num [QDfloat, sumPF, weightFactor, PF.div, PF.mul, PF.add])

/-- Modelled from the spec: the governing-shear rule of the
ResponseCombiner component (spec section 4.5),
V_design = max(V_RS, 0.8 · V_static). No code under src/ implements this
combination — the file computes and distributes base shears only — so the
rule is stated from the spec sentence. -/
def governingShear (vRS vStatic : ℚ) : ℚ := max vRS (0.8 * vStatic)

/-- C9: the governing shear is the maximum of the response-spectrum shear
and 80 percent of the static shear, hence never below the 0.8 floor, and
at V_RS = 0, V_static = 100 it is exactly 80. -/
theorem governing_shear_floor :
    (∀ vRS vStatic : ℚ,
      governingShear vRS vStatic = max vRS (0.8 * vStatic) ∧
      0.8 * vStatic ≤ governingShear vRS vStatic) ∧
    governingShear 0 100 = 80 := by
  refine ⟨fun vRS vStatic => ⟨rfl, le_max_right _ _⟩, ?_⟩
  rw [governingShear]
  norm_num

/-- C10 counterexample: at T = 0 with the unknown site label "Hard",
`gamma_v` raises ZeroDivisionError, not the KeyError the claim asserts it
always raises for an unrecognized site: the dict values `1/T, 1.5/T, 2/T`
are evaluated before the subscript. -/
theorem gamma_v_zero_before_key :
    gamma_v 0 "Hard" = Except.error PyErr.zeroDivision ∧
    gamma_v 0 "Hard" ≠ Except.error PyErr.keyError := by
  constructor <;> simp [gamma_v]

/-- C10 amended: for any site string other than "A/B", "C" and "D", the
horizontal ratio silently uses the site-D formulas (and, being total,
never raises), while `delta_v` raises KeyError exactly when T ≤ 0.10 s and
`gamma_v` raises KeyError whenever T ≠ 0 — but at T = 0 `gamma_v` raises
ZeroDivisionError instead, for every site string, because the dict values
are evaluated before the lookup. -/
theorem site_fallback_vs_keyerror (site : String)
    (h1 : site ≠ "A/B") (h2 : site ≠ "C") (h3 : site ≠ "D") (T : ℚ) :
    A_NH T site =
      (if T ≤ 0.8 then 2.5 else if T ≤ 6 then 2 / T else 12 / T ^ 2) ∧
    (T ≤ 0.10 → delta_v T site = Except.error PyErr.keyError) ∧
    (0.10 < T → delta_v T site = Except.ok 0.67) ∧
    (T ≠ 0 → gamma_v T site = Except.error PyErr.keyError) ∧
    (T = 0 → gamma_v T site = Except.error PyErr.zeroDivision) := by
  refine ⟨A_NH_other T site h1 h2, fun h => ?_, fun h => ?_,
    fun h => ?_, fun h => ?_⟩
  · simp [delta_v, not_lt.mpr h, h1, h2, h3]
  · simp [delta_v, h]
  · simp [gamma_v, h, h1, h2, h3]
  · simp [gamma_v, h]

/-- Witness for C10 amended: the unknown label "Hard" at T = 1 gets a
KeyError from `gamma_v`. -/
theorem site_fallback_vs_keyerror_witness :
    gamma_v 1 "Hard" = Except.error PyErr.keyError :=
  (site_fallback_vs_keyerror "Hard" (by decide) (by decide) (by decide)
    1).2.2.2.1 (by norm_num)

end IS1893
